import Mathlib

/-!
Verification of the Execution & Session Tracking Engine of the ignition-mcp
VS Code extension: a shallow embedding of `src/tasks/taskManager.ts` and
`src/launch/launchManager.ts`, plus theorems settling the specification's
claims about status settlement, bounded output capture, the debug-session
state machine, inspection-operation gating, cancellation and await semantics.

Text (JS strings) is modelled as `List Char`; JS `Map` objects are modelled
as association lists with set/delete helpers mirroring `Map.set`/`Map.delete`;
timestamps (`Date.now()`) are explicit `Nat` parameters; the VS Code /
debug-adapter environment is passed in explicitly (active session id,
adapter request oracle, event tokens).
-/

namespace IgnitionMCP

/-! ### Association-list maps (model of the JS `Map` fields) -/

/-- Lookup in an association list, first match wins (JS `Map.get`). -/
def getKey {β : Type} (k : String) : List (String × β) → Option β
  | [] => none
  | (k', v') :: rest => if k' = k then some v' else getKey k rest

/-- `Map.set`: replace the binding if the key is present, else append. -/
def setKey {β : Type} (k : String) (v : β) : List (String × β) → List (String × β)
  | [] => [(k, v)]
  | (k', v') :: rest => if k' = k then (k, v) :: rest else (k', v') :: setKey k v rest

/-- `Map.delete`: remove the binding for the key. -/
def delKey {β : Type} (k : String) : List (String × β) → List (String × β)
  | [] => []
  | (k', v') :: rest => if k' = k then delKey k rest else (k', v') :: delKey k rest

theorem getKey_setKey_self {β : Type} (k : String) (v : β) (m : List (String × β)) :
    getKey k (setKey k v m) = some v := by
  induction m with
  | nil => simp [getKey, setKey]
  | cons hd tl ih =>
    obtain ⟨k', v'⟩ := hd
    by_cases h : k' = k <;> simp [getKey, setKey, h, ih]

theorem getKey_setKey_ne {β : Type} {k k' : String} (h : k' ≠ k) (v : β)
    (m : List (String × β)) : getKey k (setKey k' v m) = getKey k m := by
  induction m with
  | nil => simp [getKey, setKey, h]
  | cons hd tl ih =>
    obtain ⟨k'', v''⟩ := hd
    by_cases h2 : k'' = k' <;> by_cases h3 : k'' = k <;>
      simp_all [getKey, setKey]

theorem getKey_delKey_self {β : Type} (k : String) (m : List (String × β)) :
    getKey k (delKey k m) = none := by
  induction m with
  | nil => simp [getKey, delKey]
  | cons hd tl ih =>
    obtain ⟨k', v'⟩ := hd
    by_cases h : k' = k <;> simp [getKey, delKey, h, ih]

theorem getKey_delKey_ne {β : Type} {k k' : String} (h : k' ≠ k)
    (m : List (String × β)) : getKey k (delKey k' m) = getKey k m := by
  induction m with
  | nil => simp [getKey, delKey]
  | cons hd tl ih =>
    obtain ⟨k'', v''⟩ := hd
    by_cases h2 : k'' = k' <;> by_cases h3 : k'' = k <;>
      simp_all [getKey, delKey]

/-! ### Task Runner data model (`taskManager.ts`) -/

/-- `TaskExecutionInfo.status`: 'running' | 'completed' | 'failed' | 'cancelled'. -/
inductive TaskStatus
  | running
  | completed
  | failed
  | cancelled
deriving DecidableEq

/-- `TaskExecutionInfo` record tracked per execution id. -/
structure TaskExecutionInfo where
  executionId : String
  taskName : String
  status : TaskStatus
  startTime : Nat
  endTime : Option Nat := none
  exitCode : Option Int := none
deriving DecidableEq

/-- The mutable registry fields of `TaskManager`. A `vscode.TaskExecution`
object is modelled by an opaque token-id string; `activeExecutions` maps
execution id to the stored token, `executionToId` maps token to execution id
(populated only by the interactive path, as in the source). The engine-wide
default output limit models the `ignition-mcp.outputLimit` configuration read
(`number | null`, default 20480). -/
structure TaskManagerState where
  executions : List (String × TaskExecutionInfo)
  outputs : List (String × List Char)
  outputTruncated : List (String × Bool)
  outputLimits : List (String × Option Nat)
  activeExecutions : List (String × String)
  executionToId : List (String × String)
  interactiveExecutionIds : List String
  defaultOutputLimit : Option Nat
deriving DecidableEq

/-- `TaskManager` with no tracked executions (fresh construction, default config). -/
def emptyTaskManager : TaskManagerState :=
  { executions := [], outputs := [], outputTruncated := [], outputLimits := [],
    activeExecutions := [], executionToId := [], interactiveExecutionIds := [],
    defaultOutputLimit := some 20480 }

/-- `getOutputLimitForExecution`: per-execution override if ever set
(`undefined` check), else the engine default. -/
def getOutputLimitForExecution (st : TaskManagerState) (executionId : String) :
    Option Nat :=
  match getKey executionId st.outputLimits with
  | some v => v
  | none => st.defaultOutputLimit

/-- The suffix appended by `truncateOutput`:
`\n\n[Output truncated: showing first ${limit} of ${output.length} characters]`. -/
def truncMsg (limit total : Nat) : List Char :=
  (s!"\n\n[Output truncated: showing first {limit} of {total} characters]").toList

/-- `TaskManager.truncateOutput`: returns the (possibly truncated) text and the
updated manager state (it sets the `outputTruncated` flag as a side effect). -/
def truncateOutput (st : TaskManagerState) (output : List Char)
    (executionId : String) : List Char × TaskManagerState :=
  match getOutputLimitForExecution st executionId with
  | none => (output, st)
  | some limit =>
    if output.length ≤ limit then (output, st)
    else
      (output.take limit ++ truncMsg limit output.length,
       { st with outputTruncated := setKey executionId true st.outputTruncated })

/-- The output callback wired by `runTask` into `OutputCapturePty`:
`(output) => { this.outputs.set(executionId, this.truncateOutput(output, executionId)); }`.
`output` is the full accumulated pty output at this point. -/
def ptyOnOutput (st : TaskManagerState) (executionId : String)
    (output : List Char) : TaskManagerState :=
  let p := truncateOutput st output executionId
  { p.2 with outputs := setKey executionId p.1 p.2.outputs }

/-- The exit callback wired by `runTask` into `OutputCapturePty`: it sets
exit code, status (completed iff code 0, else failed) and end time on the
execution record — with no check of the current status — and removes the
execution from `activeExecutions`. -/
def ptyOnExit (st : TaskManagerState) (executionId : String) (exitCode : Int)
    (now : Nat) : TaskManagerState :=
  let st' :=
    match getKey executionId st.executions with
    | some info =>
      { st with
        executions :=
          setKey executionId
            ({ info with exitCode := some exitCode,
                         status := if exitCode = 0 then TaskStatus.completed
                                   else TaskStatus.failed,
                         endTime := some now })
            st.executions }
    | none => st
  { st' with activeExecutions := delKey executionId st'.activeExecutions }

/-- Registry bookkeeping done by `runTask` for a capture-mode task: record
created with status running, empty output, optional per-execution limit
(`mcpOptions?.outputLimit !== undefined`), and the `vscode.TaskExecution`
handle stored in `activeExecutions`. -/
def registerCaptureExecution (st : TaskManagerState)
    (executionId taskName : String) (outputLimitOpt : Option (Option Nat))
    (tokenId : String) (now : Nat) : TaskManagerState :=
  { st with
    executions := setKey executionId
      ({ executionId := executionId, taskName := taskName,
         status := TaskStatus.running, startTime := now }) st.executions,
    outputs := setKey executionId [] st.outputs,
    outputLimits :=
      match outputLimitOpt with
      | some l => setKey executionId l st.outputLimits
      | none => st.outputLimits,
    activeExecutions := setKey executionId tokenId st.activeExecutions }

/-- Registry bookkeeping done by `runTask` + `runTaskInteractive` for an
interactive task: additionally flags the id interactive, stores the
token → id correlation, and replaces the output with the placeholder. -/
def registerInteractiveExecution (st : TaskManagerState)
    (executionId taskName : String) (outputLimitOpt : Option (Option Nat))
    (tokenId : String) (now : Nat) : TaskManagerState :=
  let st := { st with
    executions := setKey executionId
      ({ executionId := executionId, taskName := taskName,
         status := TaskStatus.running, startTime := now }) st.executions,
    outputs := setKey executionId [] st.outputs,
    outputLimits :=
      match outputLimitOpt with
      | some l => setKey executionId l st.outputLimits
      | none => st.outputLimits }
  { st with
    interactiveExecutionIds := executionId :: st.interactiveExecutionIds,
    activeExecutions := setKey executionId tokenId st.activeExecutions,
    executionToId := setKey tokenId executionId st.executionToId,
    outputs := setKey executionId
      ("[Interactive mode: output not captured]").toList st.outputs }

/-- `TaskManager.findExecutionId`: direct `executionToId` lookup, then object
identity against `activeExecutions`, then the task-name fallback over
still-running interactive executions. -/
def findExecutionId (st : TaskManagerState) (tokenId taskName : String) :
    Option String :=
  match getKey tokenId st.executionToId with
  | some id => some id
  | none =>
    match st.activeExecutions.find? (fun p => p.2 == tokenId) with
    | some p => some p.1
    | none =>
      match st.executions.find? (fun p =>
          p.2.taskName == taskName && p.2.status == TaskStatus.running &&
          st.interactiveExecutionIds.contains p.1) with
      | some p => some p.1
      | none => none

/-- `TaskManager.onTaskEnded`: cleans up the bookkeeping maps and settles the
status to completed only if it is still running. -/
def onTaskEnded (st : TaskManagerState) (tokenId taskName : String)
    (now : Nat) : TaskManagerState :=
  match findExecutionId st tokenId taskName with
  | none => st
  | some execId =>
    let st := { st with
      activeExecutions := delKey execId st.activeExecutions,
      executionToId := delKey tokenId st.executionToId,
      interactiveExecutionIds := st.interactiveExecutionIds.filter (· ≠ execId) }
    match getKey execId st.executions with
    | some info =>
      if info.status = TaskStatus.running then
        { st with
          executions := setKey execId
            ({ info with status := TaskStatus.completed, endTime := some now })
            st.executions }
      else st
    | none => st

/-- `TaskManager.onTaskProcessEnded`: records the exit code unconditionally,
and settles status and end time only if the status is still running; it does
not clean up `activeExecutions` (cleanup is left to `onTaskEnded`). -/
def onTaskProcessEnded (st : TaskManagerState) (tokenId taskName : String)
    (exitCode : Int) (now : Nat) : TaskManagerState :=
  match findExecutionId st tokenId taskName with
  | none => st
  | some execId =>
    match getKey execId st.executions with
    | some info =>
      let info := { info with exitCode := some exitCode }
      if info.status = TaskStatus.running then
        { st with
          executions := setKey execId
            ({ info with status := if exitCode = 0 then TaskStatus.completed
                                   else TaskStatus.failed,
                         endTime := some now })
            st.executions }
      else { st with executions := setKey execId info st.executions }
    | none => st

/-- Result of `TaskManager.cancelTask`. -/
structure TaskCancelResult where
  success : Bool
  error : Option String := none
deriving DecidableEq

/-- `TaskManager.cancelTask`: succeeds iff the id is in `activeExecutions`
(terminating the handle, settling status to cancelled, recording an end
time); otherwise distinguishes a known non-running execution from an unknown
id. -/
def cancelTask (st : TaskManagerState) (executionId : String) (now : Nat) :
    TaskCancelResult × TaskManagerState :=
  match getKey executionId st.activeExecutions with
  | none =>
    match getKey executionId st.executions with
    | some info =>
      if info.status ≠ TaskStatus.running then
        ({ success := false, error := some "Task is not running" }, st)
      else
        ({ success := false, error := some "Execution not found" }, st)
    | none => ({ success := false, error := some "Execution not found" }, st)
  | some _ =>
    let st' :=
      match getKey executionId st.executions with
      | some info =>
        { st with
          executions := setKey executionId
            ({ info with status := TaskStatus.cancelled, endTime := some now })
            st.executions }
      | none => st
    ({ success := true },
     { st' with activeExecutions := delKey executionId st'.activeExecutions })

/-! ### Debug Session Tracker data model (`launchManager.ts`) -/

/-- `DebugSessionInfo.state`: the fine per-session state machine. -/
inductive SessionState
  | initializing
  | running
  | paused
  | terminated
deriving DecidableEq

/-- `DebugSessionInfo.status`: the coarse active/terminated status. -/
inductive SessionStatus
  | active
  | terminated
deriving DecidableEq

/-- The string value the source stores for each `SessionState` variant. -/
def stateString : SessionState → String
  | SessionState.initializing => "initializing"
  | SessionState.running => "running"
  | SessionState.paused => "paused"
  | SessionState.terminated => "terminated"

/-- `ExceptionInfo` recorded on a stopped-with-exception event. -/
structure ExceptionInfo where
  exceptionId : String
  description : Option String := none
deriving DecidableEq

/-- `DebugSessionInfo` record tracked per session id. -/
structure DebugSessionInfo where
  id : String
  name : String
  sessionType : String
  status : SessionStatus
  state : SessionState
  startTime : Nat
  endTime : Option Nat := none
  stopReason : Option String := none
  exceptionInfo : Option ExceptionInfo := none
  stoppedThreadId : Option Nat := none
  consoleOverridden : Option Bool := none
deriving DecidableEq

/-- The mutable registry fields of `LaunchManager`. `outputs` stores the
per-session fragment arrays; `defaultOutputLimit` models the
`ignition-mcp.outputLimit` configuration read (default 20480). -/
structure LaunchManagerState where
  sessions : List (String × DebugSessionInfo)
  outputs : List (String × List (List Char))
  outputLengths : List (String × Nat)
  outputTruncated : List (String × Bool)
  outputLimits : List (String × Option Nat)
  pendingOutputLimits : List (String × Option Nat)
  pendingConsoleOverrides : List (String × Bool)
  defaultOutputLimit : Option Nat
deriving DecidableEq

/-- `LaunchManager` with no tracked sessions (fresh construction, default config). -/
def emptyLaunchManager : LaunchManagerState :=
  { sessions := [], outputs := [], outputLengths := [], outputTruncated := [],
    outputLimits := [], pendingOutputLimits := [], pendingConsoleOverrides := [],
    defaultOutputLimit := some 20480 }

/-- `getOutputLimitForSession`: per-session override if ever set
(`undefined` check), else the engine default. -/
def getOutputLimitForSession (st : LaunchManagerState) (sessionId : String) :
    Option Nat :=
  match getKey sessionId st.outputLimits with
  | some v => v
  | none => st.defaultOutputLimit

/-- The payload body of a debug-adapter protocol event, restricted to the
fields the source reads (`output`, `reason`, `threadId`, `text`,
`description`); each is optional, mirroring the untyped record. -/
structure DebugEventBody where
  output : Option (List Char) := none
  reason : Option String := none
  threadId : Option Nat := none
  text : Option String := none
  description : Option String := none
deriving DecidableEq

/-- `(body.text as string) || 'unknown'`: a missing or empty text field
falls back to `"unknown"`. -/
def exceptionIdFrom (t : Option String) : String :=
  match t with
  | some s => if s = "" then "unknown" else s
  | none => "unknown"

/-- `LaunchManager.captureOutput`: drops an empty/absent fragment; with a
non-null resolved limit, returns untouched once the accumulated length has
reached the limit, clips a fragment straddling the limit (setting the
truncated flag), and otherwise appends the fragment in full. -/
def captureOutput (st : LaunchManagerState) (sessionId : String)
    (body : DebugEventBody) : LaunchManagerState :=
  match body.output with
  | none => st
  | some output =>
    if output = [] then st
    else
      let limit := getOutputLimitForSession st sessionId
      let currentLength := (getKey sessionId st.outputLengths).getD 0
      match limit with
      | some l =>
        if l ≤ currentLength then st
        else
          let outputs := (getKey sessionId st.outputs).getD []
          if l < currentLength + output.length then
            { st with
              outputs := setKey sessionId
                (outputs ++ [output.take (l - currentLength)]) st.outputs,
              outputLengths := setKey sessionId l st.outputLengths,
              outputTruncated := setKey sessionId true st.outputTruncated }
          else
            { st with
              outputs := setKey sessionId (outputs ++ [output]) st.outputs,
              outputLengths := setKey sessionId (currentLength + output.length)
                st.outputLengths }
      | none =>
        let outputs := (getKey sessionId st.outputs).getD []
        { st with
          outputs := setKey sessionId (outputs ++ [output]) st.outputs,
          outputLengths := setKey sessionId (currentLength + output.length)
            st.outputLengths }

/-- `LaunchManager.handleDebugEvent` (the debug-adapter tracker dispatch):
returns unchanged when the payload body is absent (`if (!body) return`);
otherwise switches on the event name with no precondition on the current
session state. -/
def handleDebugEvent (st : LaunchManagerState) (sessionId : String)
    (event : Option String) (body : Option DebugEventBody) :
    LaunchManagerState :=
  match body with
  | none => st
  | some b =>
    if event = some "initialized" then
      match getKey sessionId st.sessions with
      | some info =>
        { st with
          sessions := setKey sessionId
            ({ info with state := SessionState.running }) st.sessions }
      | none => st
    else if event = some "output" then
      captureOutput st sessionId b
    else if event = some "stopped" then
      match getKey sessionId st.sessions with
      | some info =>
        let info1 := { info with
          state := SessionState.paused,
          stopReason := b.reason,
          stoppedThreadId := b.threadId }
        let info2 :=
          if b.reason = some "exception" then
            { info1 with
              exceptionInfo := some
                { exceptionId := exceptionIdFrom b.text,
                  description := b.description } }
          else info1
        { st with sessions := setKey sessionId info2 st.sessions }
      | none => st
    else if event = some "continued" then
      match getKey sessionId st.sessions with
      | some info =>
        { st with
          sessions := setKey sessionId
            ({ info with state := SessionState.running, stopReason := none,
                         stoppedThreadId := none }) st.sessions }
      | none => st
    else if event = some "exited" ∨ event = some "terminated" then
      match getKey sessionId st.sessions with
      | some info =>
        { st with
          sessions := setKey sessionId
            ({ info with state := SessionState.terminated }) st.sessions }
      | none => st
    else st

/-- `LaunchManager.onSessionStarted`: creates the session record in state
initializing with fresh output bookkeeping. -/
def onSessionStarted (st : LaunchManagerState) (sessionId name sessionType : String)
    (now : Nat) : LaunchManagerState :=
  { st with
    sessions := setKey sessionId
      ({ id := sessionId, name := name, sessionType := sessionType,
         status := SessionStatus.active, state := SessionState.initializing,
         startTime := now }) st.sessions,
    outputs := setKey sessionId [] st.outputs,
    outputLengths := setKey sessionId 0 st.outputLengths,
    outputTruncated := delKey sessionId st.outputTruncated }

/-- `LaunchManager.onSessionTerminated`: finalizes coarse status, fine state
and end time for a tracked session. -/
def onSessionTerminated (st : LaunchManagerState) (sessionId : String)
    (now : Nat) : LaunchManagerState :=
  match getKey sessionId st.sessions with
  | some info =>
    { st with
      sessions := setKey sessionId
        ({ info with status := SessionStatus.terminated,
                     state := SessionState.terminated,
                     endTime := some now }) st.sessions }
  | none => st

/-! ### Inspection Façade (`launchManager.ts` request helpers)

Each operation is modelled as a pure function of the registry state and a
`DebugEnv` describing the VS Code side (the active session and the debug
adapter's response to each `customRequest`); it returns its result together
with the list of protocol requests it issued, in order. -/

/-- A `session.customRequest` call, with the arguments the source passes. -/
inductive DapRequest
  | stackTrace (threadId startFrame levels : Nat)
  | scopes (frameId : Nat)
  | variablesReq (variablesReference : Nat)
  | evaluateReq (expression : String) (frameId : Nat) (context : String)
  | continueReq (threadId : Nat)
deriving DecidableEq

/-- `source` field of a protocol stack frame. -/
structure FrameSource where
  name : Option String := none
  path : Option String := none
deriving DecidableEq

/-- A stack frame as normalized by `getStackTrace`. -/
structure StackFrame where
  id : Nat
  name : String
  source : Option FrameSource := none
  line : Nat
  column : Nat
deriving DecidableEq

/-- A scope descriptor from a `scopes` response. -/
structure RawScope where
  name : String
  variablesReference : Nat
deriving DecidableEq

/-- A variable from a `variables` response, before normalization. -/
structure RawVariable where
  name : String
  value : String
  varType : Option String := none
  variablesReference : Option Nat := none
deriving DecidableEq

/-- A normalized variable (`variablesReference` defaulted to 0). -/
structure VariableInfo where
  name : String
  value : String
  varType : Option String := none
  variablesReference : Nat
deriving DecidableEq

/-- A scope with its fetched variables. -/
structure ScopeInfo where
  name : String
  variablesReference : Nat
  vars : List VariableInfo
deriving DecidableEq

/-- A debug-adapter response, duck-typed as in the source: only the fields a
given request kind actually fills are present. -/
structure DapResponse where
  stackFrames : Option (List StackFrame) := none
  scopes : Option (List RawScope) := none
  vars : Option (List RawVariable) := none
  result : Option String := none
  resultType : Option String := none
  variablesReference : Option Nat := none
  allThreadsContinued : Option Bool := none

/-- The VS Code debug environment: the currently active session id
(`vscode.debug.activeDebugSession?.id`) and the adapter's behavior on each
protocol request (`.error` models a rejected request / thrown exception). -/
structure DebugEnv where
  activeSessionId : Option String
  adapter : DapRequest → Except String DapResponse

/-- `sessionId || vscode.debug.activeDebugSession?.id` (an empty string is
falsy in JS and falls through to the active session). -/
def resolveTargetId (env : DebugEnv) (sessionId : Option String) :
    Option String :=
  match sessionId with
  | some s => if s = "" then env.activeSessionId else some s
  | none => env.activeSessionId

/-- `findSessionById`: resolves only when the id is the active session's. -/
def findSessionById (env : DebugEnv) (sessionId : String) : Bool :=
  env.activeSessionId = some sessionId

/-- `const threadId = info.stoppedThreadId; if (!threadId)`: both a missing
and a zero thread id are falsy. -/
def truthyNat (n : Option Nat) : Option Nat :=
  match n with
  | some t => if t = 0 then none else some t
  | none => none

/-- `a || b` on optional numbers, with JS zero-falsiness. -/
def jsOrNat (a b : Option Nat) : Option Nat :=
  match a with
  | some t => if t = 0 then b else some t
  | none => b

/-- Result of `getStackTrace`. -/
structure StackTraceResult where
  success : Bool
  sessionId : Option String := none
  threadId : Option Nat := none
  stackFrames : Option (List StackFrame) := none
  error : Option String := none
deriving DecidableEq

/-- The `Session is not paused (state: ...)` error message. -/
def notPausedMsg (s : SessionState) : String :=
  let ss := stateString s
  s!"Session is not paused (state: {ss})"

/-- `LaunchManager.getStackTrace`: fails fast (issuing no request) unless the
target session is tracked, paused, has a truthy stopped thread id and is the
active session; otherwise issues one `stackTrace` request. -/
def getStackTrace (env : DebugEnv) (st : LaunchManagerState)
    (sessionId : Option String) : StackTraceResult × List DapRequest :=
  match resolveTargetId env sessionId with
  | none => ({ success := false, error := some "No active debug session" }, [])
  | some targetId =>
    match getKey targetId st.sessions with
    | none =>
      ({ success := false, sessionId := some targetId,
         error := some "Session not found" }, [])
    | some info =>
      if info.state ≠ SessionState.paused then
        ({ success := false, sessionId := some targetId,
           error := some (notPausedMsg info.state) }, [])
      else
        match truthyNat info.stoppedThreadId with
        | none =>
          ({ success := false, sessionId := some targetId,
             error := some "No stopped thread ID available" }, [])
        | some threadId =>
          if findSessionById env targetId then
            match env.adapter (DapRequest.stackTrace threadId 0 20) with
            | Except.ok resp =>
              ({ success := true, sessionId := some targetId,
                 threadId := some threadId,
                 stackFrames := some (resp.stackFrames.getD []) },
               [DapRequest.stackTrace threadId 0 20])
            | Except.error e =>
              ({ success := false, sessionId := some targetId,
                 error := some ("Failed to get stack trace: " ++ e) },
               [DapRequest.stackTrace threadId 0 20])
          else
            ({ success := false, sessionId := some targetId,
               error := some "Debug session not found" }, [])

/-- Result of `getVariables`. -/
structure GetVariablesResult where
  success : Bool
  sessionId : Option String := none
  frameId : Option Nat := none
  scopes : Option (List ScopeInfo) := none
  error : Option String := none
deriving DecidableEq

/-- Normalization of one raw variable (`(v.variablesReference as number) || 0`). -/
def mapVariable (v : RawVariable) : VariableInfo :=
  { name := v.name, value := v.value, varType := v.varType,
    variablesReference := v.variablesReference.getD 0 }

/-- The per-scope `variables` request loop inside `getVariables`; an adapter
error aborts the loop (the exception propagates to the catch). -/
def fetchScopes (env : DebugEnv) :
    List RawScope → Except String (List ScopeInfo) × List DapRequest
  | [] => (Except.ok [], [])
  | sc :: rest =>
    match env.adapter (DapRequest.variablesReq sc.variablesReference) with
    | Except.error e => (Except.error e, [DapRequest.variablesReq sc.variablesReference])
    | Except.ok resp =>
      let vars := (resp.vars.getD []).map mapVariable
      let p := fetchScopes env rest
      match p.1 with
      | Except.error e =>
        (Except.error e, DapRequest.variablesReq sc.variablesReference :: p.2)
      | Except.ok scopesAcc =>
        (Except.ok ({ name := sc.name,
                      variablesReference := sc.variablesReference,
                      vars := vars } :: scopesAcc),
         DapRequest.variablesReq sc.variablesReference :: p.2)

/-- The part of `getVariables` after a frame id has been resolved: one
`scopes` request, then one `variables` request per scope. -/
def getVariablesFromFrame (env : DebugEnv) (targetId : String)
    (frameId : Nat) (reqs : List DapRequest) :
    GetVariablesResult × List DapRequest :=
  match env.adapter (DapRequest.scopes frameId) with
  | Except.error e =>
    ({ success := false, sessionId := some targetId,
       error := some ("Failed to get variables: " ++ e) },
     reqs ++ [DapRequest.scopes frameId])
  | Except.ok resp =>
    let p := fetchScopes env (resp.scopes.getD [])
    match p.1 with
    | Except.error e =>
      ({ success := false, sessionId := some targetId,
         error := some ("Failed to get variables: " ++ e) },
       reqs ++ DapRequest.scopes frameId :: p.2)
    | Except.ok scopes =>
      ({ success := true, sessionId := some targetId, frameId := some frameId,
         scopes := some scopes },
       reqs ++ DapRequest.scopes frameId :: p.2)

/-- `LaunchManager.getVariables`: fails fast (issuing no request) unless the
target session is tracked, paused and active; resolves the top frame when no
frame id is given, then fetches every scope and its variables. -/
def getVariables (env : DebugEnv) (st : LaunchManagerState)
    (sessionId : Option String) (frameId : Option Nat) :
    GetVariablesResult × List DapRequest :=
  match resolveTargetId env sessionId with
  | none => ({ success := false, error := some "No active debug session" }, [])
  | some targetId =>
    match getKey targetId st.sessions with
    | none =>
      ({ success := false, sessionId := some targetId,
         error := some "Session not found" }, [])
    | some info =>
      if info.state ≠ SessionState.paused then
        ({ success := false, sessionId := some targetId,
           error := some (notPausedMsg info.state) }, [])
      else if findSessionById env targetId then
        match frameId with
        | some fid => getVariablesFromFrame env targetId fid []
        | none =>
          match truthyNat info.stoppedThreadId with
          | none =>
            ({ success := false, sessionId := some targetId,
               error := some "No stopped thread ID available" }, [])
          | some threadId =>
            match env.adapter (DapRequest.stackTrace threadId 0 1) with
            | Except.error e =>
              ({ success := false, sessionId := some targetId,
                 error := some ("Failed to get variables: " ++ e) },
               [DapRequest.stackTrace threadId 0 1])
            | Except.ok resp =>
              match resp.stackFrames with
              | none =>
                ({ success := false, sessionId := some targetId,
                   error := some "No stack frames available" },
                 [DapRequest.stackTrace threadId 0 1])
              | some [] =>
                ({ success := false, sessionId := some targetId,
                   error := some "No stack frames available" },
                 [DapRequest.stackTrace threadId 0 1])
              | some (f :: _) =>
                getVariablesFromFrame env targetId f.id
                  [DapRequest.stackTrace threadId 0 1]
      else
        ({ success := false, sessionId := some targetId,
           error := some "Debug session not found" }, [])

/-- Result of `evaluate`. -/
structure EvaluateResult where
  success : Bool
  result : Option String := none
  resultType : Option String := none
  variablesReference : Option Nat := none
  error : Option String := none
deriving DecidableEq

/-- `LaunchManager.evaluate`: fails fast (issuing no request) unless the
target session is tracked, paused and active; resolves the top frame when no
frame id is given, then issues one `evaluate` request in repl context. -/
def evaluate (env : DebugEnv) (st : LaunchManagerState) (expression : String)
    (sessionId : Option String) (frameId : Option Nat) :
    EvaluateResult × List DapRequest :=
  match resolveTargetId env sessionId with
  | none => ({ success := false, error := some "No active debug session" }, [])
  | some targetId =>
    match getKey targetId st.sessions with
    | none => ({ success := false, error := some "Session not found" }, [])
    | some info =>
      if info.state ≠ SessionState.paused then
        ({ success := false, error := some (notPausedMsg info.state) }, [])
      else if findSessionById env targetId then
        let fromFrame := fun (fid : Nat) (reqs : List DapRequest) =>
          match env.adapter (DapRequest.evaluateReq expression fid "repl") with
          | Except.ok resp =>
            ({ success := true, result := resp.result,
               resultType := resp.resultType,
               variablesReference := some (resp.variablesReference.getD 0) },
             reqs ++ [DapRequest.evaluateReq expression fid "repl"])
          | Except.error e =>
            ({ success := false, error := some ("Evaluation failed: " ++ e) },
             reqs ++ [DapRequest.evaluateReq expression fid "repl"])
        match frameId with
        | some fid => fromFrame fid []
        | none =>
          match truthyNat info.stoppedThreadId with
          | none =>
            ({ success := false,
               error := some "No stopped thread ID available" }, [])
          | some threadId =>
            match env.adapter (DapRequest.stackTrace threadId 0 1) with
            | Except.error e =>
              ({ success := false,
                 error := some ("Evaluation failed: " ++ e) },
               [DapRequest.stackTrace threadId 0 1])
            | Except.ok resp =>
              match resp.stackFrames with
              | none =>
                ({ success := false,
                   error := some "No stack frames available" },
                 [DapRequest.stackTrace threadId 0 1])
              | some [] =>
                ({ success := false,
                   error := some "No stack frames available" },
                 [DapRequest.stackTrace threadId 0 1])
              | some (f :: _) =>
                fromFrame f.id [DapRequest.stackTrace threadId 0 1]
      else
        ({ success := false, error := some "Debug session not found" }, [])

/-- Result of `continueExecution`. -/
structure ContinueResult where
  success : Bool
  allThreadsContinued : Option Bool := none
  error : Option String := none
deriving DecidableEq

/-- `LaunchManager.continueExecution`: fails fast (issuing no request) unless
the target session is tracked, paused and active; resumes the given thread or
the last-stopped thread via one `continue` request. -/
def continueExecution (env : DebugEnv) (st : LaunchManagerState)
    (sessionId : Option String) (threadId : Option Nat) :
    ContinueResult × List DapRequest :=
  match resolveTargetId env sessionId with
  | none => ({ success := false, error := some "No active debug session" }, [])
  | some targetId =>
    match getKey targetId st.sessions with
    | none => ({ success := false, error := some "Session not found" }, [])
    | some info =>
      if info.state ≠ SessionState.paused then
        ({ success := false, error := some (notPausedMsg info.state) }, [])
      else if findSessionById env targetId then
        match truthyNat (jsOrNat threadId info.stoppedThreadId) with
        | none => ({ success := false, error := some "No thread ID available" }, [])
        | some targetThreadId =>
          match env.adapter (DapRequest.continueReq targetThreadId) with
          | Except.ok resp =>
            ({ success := true,
               allThreadsContinued := resp.allThreadsContinued },
             [DapRequest.continueReq targetThreadId])
          | Except.error e =>
            ({ success := false, error := some ("Failed to continue: " ++ e) },
             [DapRequest.continueReq targetThreadId])
      else
        ({ success := false, error := some "Debug session not found" }, [])

/-! ### Debug output, session start, breakpoints (`launchManager.ts`) -/

/-- Result of `getDebugOutput`. -/
structure DebugOutputResult where
  success : Bool
  sessionId : Option String := none
  output : Option (List Char) := none
  truncated : Option Bool := none
  error : Option String := none
deriving DecidableEq

/-- `${limit}` printing of a `number | null` limit. -/
def limitString : Option Nat → String
  | some n => toString n
  | none => "null"

/-- The notice `getDebugOutput` appends when the truncated flag is set. -/
def debugTruncNotice (limit : Option Nat) : List Char :=
  let ls := limitString limit
  (s!"\n\n[Output truncated: showing first {ls} characters]").toList

/-- `LaunchManager.getDebugOutput`: joins the stored fragments and appends the
truncation notice when the flag is set; fails when the target id has no
output entry. -/
def getDebugOutput (env : DebugEnv) (st : LaunchManagerState)
    (sessionId : Option String) : DebugOutputResult :=
  match resolveTargetId env sessionId with
  | none => { success := false, error := some "No active debug session" }
  | some targetId =>
    match getKey targetId st.outputs with
    | none =>
      { success := false, sessionId := some targetId,
        error := some "Session not found or no output captured" }
    | some outs =>
      let truncated := getKey targetId st.outputTruncated
      let base := outs.flatten
      let output :=
        if truncated = some true then
          base ++ debugTruncNotice (getOutputLimitForSession st targetId)
        else base
      { success := true, sessionId := some targetId, output := some output,
        truncated := truncated }

/-- Result of `startDebug`. -/
structure StartDebugResult where
  success : Bool
  sessionId : Option String := none
  consoleOverridden : Option Bool := none
  error : Option String := none
deriving DecidableEq

/-- A launch configuration as `startDebug` consumes it (already resolved
from `launch.json`; input substitution happens upstream of the fields this
model tracks). -/
structure LaunchConfig where
  name : String
  console : Option String := none
  preserveConsole : Bool := false
  outputLimitOpt : Option (Option Nat) := none
deriving DecidableEq

/-- The fallback session id `debug-${Date.now()}` fabricated when the start
request succeeded but no active debug session is observable. -/
def fabricatedSessionId (now : Nat) : String :=
  "debug-" ++ toString now

/-- `pending-${Date.now()}`. -/
def pendingId (now : Nat) : String :=
  "pending-" ++ toString now

/-- `LaunchManager.startDebug`: resolves the named configuration, computes
the console override, parks pending bookkeeping under a `pending-` key,
requests the session start (`started`/`activeAfter` describe the VS Code
outcome: whether `startDebugging` resolved true, and the active session id
observed afterwards), then reports the active session's id — or a fabricated
`debug-` id when none is observable. -/
def startDebug (configs : List LaunchConfig) (configName : String)
    (started : Bool) (activeAfter : Option String) (now : Nat)
    (st : LaunchManagerState) : StartDebugResult × LaunchManagerState :=
  match configs.find? (fun c => c.name == configName) with
  | none =>
    ({ success := false,
       error := some (s!"Launch configuration \"{configName}\" not found") }, st)
  | some config =>
    let consoleOverridden :=
      (config.console = some "integratedTerminal" ∨
       config.console = some "externalTerminal") ∧ ¬ config.preserveConsole
    let pid := pendingId now
    let st1 := { st with
      pendingConsoleOverrides :=
        setKey pid (decide consoleOverridden) st.pendingConsoleOverrides,
      pendingOutputLimits :=
        match config.outputLimitOpt with
        | some l => setKey pid l st.pendingOutputLimits
        | none => st.pendingOutputLimits }
    if ¬ started then
      ({ success := false, error := some "Failed to start debug session" },
       { st1 with
         pendingConsoleOverrides := delKey pid st1.pendingConsoleOverrides,
         pendingOutputLimits := delKey pid st1.pendingOutputLimits })
    else
      let sessionId := activeAfter.getD (fabricatedSessionId now)
      let st2 :=
        match activeAfter with
        | some aid =>
          let stA :=
            if consoleOverridden then
              match getKey aid st1.sessions with
              | some info =>
                { st1 with
                  sessions := setKey aid
                    ({ info with consoleOverridden := some true }) st1.sessions }
              | none => st1
            else st1
          match config.outputLimitOpt with
          | some l => { stA with outputLimits := setKey aid l stA.outputLimits }
          | none => stA
        | none => st1
      ({ success := true, sessionId := some sessionId,
         consoleOverridden := some (decide consoleOverridden) },
       { st2 with
         pendingConsoleOverrides := delKey pid st2.pendingConsoleOverrides,
         pendingOutputLimits := delKey pid st2.pendingOutputLimits })

/-- A `vscode.SourceBreakpoint` as stored in the editor's shared breakpoint
set (`vscode.debug.breakpoints`), with the 0-based location line. -/
structure SourceBreakpoint where
  path : String
  line : Nat
  enabled : Bool
  condition : Option String := none
  hitCondition : Option String := none
  logMessage : Option String := none
deriving DecidableEq

/-- Result of `addBreakpoint`. -/
structure AddBreakpointResult where
  success : Bool
  id : Option String := none
  error : Option String := none
deriving DecidableEq

/-- A breakpoint as reported by `listBreakpoints` (1-based line). -/
structure BreakpointInfo where
  id : String
  file : String
  line : Nat
  enabled : Bool
  condition : Option String := none
  hitCondition : Option String := none
  logMessage : Option String := none
deriving DecidableEq

/-- The composite `${file}:${line}` id string. -/
def breakpointId (file : String) (line : Nat) : String :=
  file ++ ":" ++ toString line

/-- `LaunchManager.addBreakpoint`: constructs a fresh `SourceBreakpoint` at
(file, line-1) with the given condition and registers it via
`vscode.debug.addBreakpoints`, which appends it to the editor's breakpoint
set (the VS Code API adds each breakpoint object as a new entry; it performs
no deduplication by location). Returns the fabricated `file:line` id. -/
def addBreakpoint (store : List SourceBreakpoint) (file : String) (line : Nat)
    (condition : Option String) : AddBreakpointResult × List SourceBreakpoint :=
  ({ success := true, id := some (breakpointId file line) },
   store ++ [{ path := file, line := line - 1, enabled := true,
               condition := condition }])

/-- `LaunchManager.listBreakpoints`: reports every source breakpoint in the
editor's set, with 1-based lines and the composite id. -/
def listBreakpoints (store : List SourceBreakpoint) : List BreakpointInfo :=
  store.map (fun bp =>
    { id := breakpointId bp.path (bp.line + 1), file := bp.path,
      line := bp.line + 1, enabled := bp.enabled, condition := bp.condition,
      hitCondition := bp.hitCondition, logMessage := bp.logMessage })

/-- Result of `removeBreakpoint`. -/
structure RemoveBreakpointResult where
  success : Bool
  removed : Option Nat := none
  error : Option String := none
deriving DecidableEq

/-- `LaunchManager.removeBreakpoint`: removes every breakpoint whose path and
0-based line match; fails when none match. -/
def removeBreakpoint (store : List SourceBreakpoint) (file : String)
    (line : Nat) : RemoveBreakpointResult × List SourceBreakpoint :=
  let toRemove := store.filter (fun bp => bp.path == file && bp.line == line - 1)
  if toRemove.length = 0 then
    ({ success := false,
       error := some (s!"No breakpoint found at {file}:{line}") }, store)
  else
    ({ success := true, removed := some toRemove.length },
     store.filter (fun bp => ¬ (bp.path == file && bp.line == line - 1)))

/-! ### The await primitive (`TaskManager.awaitTask`)

`awaitTask` polls the mutating registry every 100ms.  The registry's view at
the k-th poll is supplied as a function of k: `view 0` is the state at the
initial synchronous check, `view k` the state 100·k ms later. -/

/-- What `awaitTask` reads from the registry at one poll: the execution
record and the output/truncated entries for the id. -/
structure RegistryView where
  info : Option TaskExecutionInfo
  output : Option (List Char)
  truncated : Option Bool

/-- Result of `awaitTask`. -/
structure TaskAwaitResult where
  success : Bool
  executionId : String
  status : Option TaskStatus := none
  exitCode : Option Int := none
  output : Option (List Char) := none
  truncated : Option Bool := none
  error : Option String := none
deriving DecidableEq

/-- The result `awaitTask` builds from a settled execution record. -/
def settledAwaitResult (executionId : String) (info : TaskExecutionInfo)
    (output : Option (List Char)) (truncated : Option Bool) : TaskAwaitResult :=
  { success := info.status == TaskStatus.completed, executionId := executionId,
    status := some info.status, exitCode := info.exitCode, output := output,
    truncated := truncated }

/-- The result `awaitTask` returns when the timeout elapses while the
execution is still running. -/
def timeoutAwaitResult (executionId : String) (timeout : Nat) : TaskAwaitResult :=
  { success := false, executionId := executionId,
    status := some TaskStatus.running,
    error := some (s!"Await timed out after {timeout}ms (task still running)") }

/-- The `checkStatus` poll loop of `awaitTask` starting at the k-th poll:
a settled record wins over the timeout check; the timeout fires when the
elapsed time 100·k strictly exceeds the budget. -/
def awaitPoll (executionId : String) (view : Nat → RegistryView)
    (timeout : Nat) (k : Nat) : TaskAwaitResult :=
  match (view k).info with
  | none => { success := false, executionId := executionId,
              error := some "Execution info lost" }
  | some info =>
    if info.status ≠ TaskStatus.running then
      settledAwaitResult executionId info (view k).output (view k).truncated
    else if h2 : timeout < 100 * k then
      timeoutAwaitResult executionId timeout
    else
      awaitPoll executionId view timeout (k + 1)
termination_by timeout + 100 - 100 * k
decreasing_by omega

/-- `TaskManager.awaitTask`: immediate return on an unknown or already
settled execution, else the poll loop with the caller's timeout or the
configured default. -/
def awaitTask (executionId : String) (view : Nat → RegistryView)
    (timeoutMs : Option Nat) (defaultAwaitTimeout : Nat) : TaskAwaitResult :=
  match (view 0).info with
  | none => { success := false, executionId := executionId,
              error := some "Execution not found" }
  | some info =>
    if info.status ≠ TaskStatus.running then
      settledAwaitResult executionId info (view 0).output (view 0).truncated
    else
      awaitPoll executionId view (timeoutMs.getD defaultAwaitTimeout) 0

/-! ### Preservation lemmas -/

/-- `captureOutput` touches only the output bookkeeping maps, never the
session records. -/
theorem captureOutput_sessions_eq (st : LaunchManagerState) (sid : String)
    (b : DebugEventBody) : (captureOutput st sid b).sessions = st.sessions := by
  unfold captureOutput
  rcases b.output with _ | out
  · rfl
  · simp only
    split
    · rfl
    · split
      · split
        · rfl
        · split <;> rfl
      · rfl

/-! ### Claim C1 -/

/-- A capture-mode execution as registered by `runTask`. -/
def c1Registered : TaskManagerState :=
  registerCaptureExecution emptyTaskManager "exec-1" "build" none "tok-1" 0

/-- The registry after `cancelTask` has settled the execution to cancelled
at time 5. -/
def c1Cancelled : TaskManagerState :=
  (cancelTask c1Registered "exec-1" 5).2

/-- C1: false on the code — the process-exit callback wired by `runTask`
re-settles an already-cancelled execution.  After `cancelTask` has settled
execution `exec-1` to status cancelled with end time 5, the pty exit
callback firing with code 0 at time 9 overwrites the status to completed and
the end timestamp to 9, contradicting the claimed at-most-once settlement. -/
theorem c1_process_exit_overwrites_settled_status :
    (cancelTask c1Registered "exec-1" 5).1.success = true
    ∧ (getKey "exec-1" c1Cancelled.executions).map TaskExecutionInfo.status
        = some TaskStatus.cancelled
    ∧ (getKey "exec-1" c1Cancelled.executions).map TaskExecutionInfo.endTime
        = some (some 5)
    ∧ (getKey "exec-1" (ptyOnExit c1Cancelled "exec-1" 0 9).executions).map
        TaskExecutionInfo.status = some TaskStatus.completed
    ∧ (getKey "exec-1" (ptyOnExit c1Cancelled "exec-1" 0 9).executions).map
        TaskExecutionInfo.endTime = some (some 9) := by
  decide

/-! ### Claim C3 -/

/-- A tracked session that has already reached the terminated fine state. -/
def c3TerminatedSession : DebugSessionInfo :=
  { id := "s1", name := "app", sessionType := "node",
    status := SessionStatus.active, state := SessionState.terminated,
    startTime := 0 }

/-- A launch registry holding only the terminated session `s1`. -/
def c3State : LaunchManagerState :=
  { emptyLaunchManager with sessions := [("s1", c3TerminatedSession)] }

/-- C3 counterexample: terminated is not absorbing.  A `stopped` event with a
present body, dispatched to a session whose fine state is terminated, moves
the state back to paused. -/
theorem c3_terminated_not_absorbing :
    (getKey "s1" c3State.sessions).map DebugSessionInfo.state
      = some SessionState.terminated
    ∧ (getKey "s1" (handleDebugEvent c3State "s1" (some "stopped")
        (some { reason := some "breakpoint", threadId := some 1 })).sessions).map
        DebugSessionInfo.state = some SessionState.paused := by
  decide

/-- C3 (amended): once a session's fine state is terminated it stays
terminated under every subsequent protocol event except an `initialized`,
`stopped` or `continued` event carrying a present payload body — those
unconditionally overwrite the state (to running / paused / running).  In
particular `output`, `exited`, `terminated`, unrecognized events, and any
event with an absent body leave a terminated state terminated. -/
theorem c3_terminated_absorbing_except_state_setters
    (st : LaunchManagerState) (sid : String) (ev : Option String)
    (body : Option DebugEventBody) (info : DebugSessionInfo)
    (hs : getKey sid st.sessions = some info)
    (hterm : info.state = SessionState.terminated)
    (h1 : ev ≠ some "initialized") (h2 : ev ≠ some "stopped")
    (h3 : ev ≠ some "continued") :
    (getKey sid (handleDebugEvent st sid ev body).sessions).map
      DebugSessionInfo.state = some SessionState.terminated := by
  unfold handleDebugEvent
  rcases body with _ | b
  · simp [hs, hterm]
  · simp only [if_neg h1, if_neg h2, if_neg h3]
    split
    · rw [captureOutput_sessions_eq, hs]
      simp [hterm]
    · split
      · split
        · next info' heq =>
          rw [hs] at heq
          cases heq
          simp [getKey_setKey_self]
        · next heq =>
          rw [hs] at heq
          cases heq
      · simp [hs, hterm]

/-- C3 witness: a terminated session stays terminated across an `exited`
event with a present body. -/
theorem c3_terminated_absorbing_except_state_setters_witness :
    (getKey "s1" c3State.sessions).map DebugSessionInfo.state
        = some SessionState.terminated
    ∧ (getKey "s1" (handleDebugEvent c3State "s1" (some "exited")
        (some {})).sessions).map DebugSessionInfo.state
        = some SessionState.terminated :=
  ⟨by decide,
   c3_terminated_absorbing_except_state_setters c3State "s1" (some "exited")
     (some {}) c3TerminatedSession (by decide) (by decide) (by decide)
     (by decide) (by decide)⟩

/-! ### Claim C4 -/

/-- A tracked session in the running fine state. -/
def c4RunningSession : DebugSessionInfo :=
  { id := "s1", name := "app", sessionType := "node",
    status := SessionStatus.active, state := SessionState.running,
    startTime := 0 }

/-- A launch registry holding only the running session `s1`. -/
def c4State : LaunchManagerState :=
  { emptyLaunchManager with sessions := [("s1", c4RunningSession)] }

/-- C4 counterexample: a `terminated` protocol event with an absent payload
body is discarded by the `if (!body) return` guard, so the session's fine
state stays running instead of becoming terminated. -/
theorem c4_terminated_event_without_body_ignored :
    (getKey "s1" (handleDebugEvent c4State "s1" (some "terminated")
        none).sessions).map DebugSessionInfo.state
      = some SessionState.running := by
  decide

/-- C4 (amended): for every tracked session, an `exited` or `terminated`
protocol event carrying a present payload body sets the session's fine state
to terminated regardless of the state it was in before; an event with an
absent body is ignored entirely. -/
theorem c4_exited_terminated_with_body_terminates
    (st : LaunchManagerState) (sid : String) (ev : Option String)
    (b : DebugEventBody) (info : DebugSessionInfo)
    (hs : getKey sid st.sessions = some info)
    (hev : ev = some "exited" ∨ ev = some "terminated") :
    (getKey sid (handleDebugEvent st sid ev (some b)).sessions).map
      DebugSessionInfo.state = some SessionState.terminated := by
  have h1 : ev ≠ some "initialized" := by rcases hev with h | h <;> simp [h]
  have h2 : ev ≠ some "output" := by rcases hev with h | h <;> simp [h]
  have h3 : ev ≠ some "stopped" := by rcases hev with h | h <;> simp [h]
  have h4 : ev ≠ some "continued" := by rcases hev with h | h <;> simp [h]
  unfold handleDebugEvent
  simp only [if_neg h1, if_neg h2, if_neg h3, if_neg h4, if_pos hev, hs]
  simp [getKey_setKey_self]

/-- C4 witness: an `exited` event with a present (empty) body terminates a
running session. -/
theorem c4_exited_terminated_with_body_terminates_witness :
    (getKey "s1" c4State.sessions).map DebugSessionInfo.state
        = some SessionState.running
    ∧ (getKey "s1" (handleDebugEvent c4State "s1" (some "exited")
        (some {})).sessions).map DebugSessionInfo.state
        = some SessionState.terminated :=
  ⟨by decide,
   c4_exited_terminated_with_body_terminates c4State "s1" (some "exited")
     {} c4RunningSession (by decide) (Or.inl rfl)⟩

/-! ### Claim C6 -/

/-- An interactive execution as registered by `runTask`/`runTaskInteractive`. -/
def c6Registered : TaskManagerState :=
  registerInteractiveExecution emptyTaskManager "exec-1" "build" none "tok-1" 0

/-- The registry after the process-ended notification (exit code 2) settled
the execution to failed — cleanup of `activeExecutions` is deferred to the
task-ended notification, which has not arrived yet. -/
def c6Settled : TaskManagerState :=
  onTaskProcessEnded c6Registered "tok-1" "build" 2 5

/-- C6 counterexample: `cancelTask` does not succeed only while the execution
is running.  In the window after `onTaskProcessEnded` has settled the status
to failed but before `onTaskEnded` cleans up the active-executions map,
`cancelTask` still succeeds and overwrites the settled status with
cancelled. -/
theorem c6_cancel_succeeds_on_settled_execution :
    (getKey "exec-1" c6Settled.executions).map TaskExecutionInfo.status
        = some TaskStatus.failed
    ∧ (cancelTask c6Settled "exec-1" 7).1.success = true
    ∧ (getKey "exec-1" (cancelTask c6Settled "exec-1" 7).2.executions).map
        TaskExecutionInfo.status = some TaskStatus.cancelled := by
  decide

/-- C6 (amended): `cancelTask(id)` succeeds exactly when the id still has an
entry in the active-executions map — which holds while the execution is
running, but also in the window where `onTaskProcessEnded` has already
settled the status and `onTaskEnded` has not yet cleaned up, in which case
the settled status is overwritten.  On success it terminates the handle,
settles the status to cancelled, records the end timestamp and drops the
handle; it fails with the distinct error `Task is not running` when the id
is known without an active handle and its status is not running, and with
`Execution not found` when the id is unknown (or, without a handle, still
recorded as running). -/
theorem c6_cancelTask_characterization (st : TaskManagerState) (id : String)
    (now : Nat) :
    (∀ tok, getKey id st.activeExecutions = some tok →
      (cancelTask st id now).1 = { success := true }
      ∧ getKey id (cancelTask st id now).2.activeExecutions = none
      ∧ ∀ info, getKey id st.executions = some info →
          getKey id (cancelTask st id now).2.executions
            = some { info with status := TaskStatus.cancelled,
                               endTime := some now })
    ∧ (getKey id st.activeExecutions = none →
        ∀ info, getKey id st.executions = some info →
          info.status ≠ TaskStatus.running →
          (cancelTask st id now).1
            = { success := false, error := some "Task is not running" })
    ∧ (getKey id st.activeExecutions = none →
        getKey id st.executions = none →
        (cancelTask st id now).1
          = { success := false, error := some "Execution not found" })
    ∧ (getKey id st.activeExecutions = none →
        ∀ info, getKey id st.executions = some info →
          info.status = TaskStatus.running →
          (cancelTask st id now).1
            = { success := false, error := some "Execution not found" }) := by
  refine ⟨?_, ?_, ?_, ?_⟩
  · intro tok htok
    refine ⟨?_, ?_, ?_⟩
    · unfold cancelTask
      rw [htok]
    · unfold cancelTask
      rw [htok]
      simp only
      exact getKey_delKey_self id _
    · intro info hinfo
      unfold cancelTask
      rw [htok]
      simp only [hinfo]
      exact getKey_setKey_self id _ _
  · intro hact info hinfo hst
    unfold cancelTask
    rw [hact, hinfo]
    simp [hst]
  · intro hact hinfo
    unfold cancelTask
    rw [hact, hinfo]
  · intro hact info hinfo hst
    unfold cancelTask
    rw [hact, hinfo]
    simp [hst]

/-- C6 witness: the characterization applied to a concrete registry — a
successful cancel on a registered running execution, and the
`Task is not running` error on the resulting state. -/
theorem c6_cancelTask_characterization_witness :
    ((cancelTask c6Registered "exec-1" 7).1 = { success := true }
      ∧ getKey "exec-1" (cancelTask c6Registered "exec-1" 7).2.activeExecutions
          = none)
    ∧ (cancelTask (cancelTask c6Registered "exec-1" 7).2 "exec-1" 9).1
        = { success := false, error := some "Task is not running" } :=
  ⟨⟨((c6_cancelTask_characterization c6Registered "exec-1" 7).1 "tok-1"
      (by decide)).1,
    ((c6_cancelTask_characterization c6Registered "exec-1" 7).1 "tok-1"
      (by decide)).2.1⟩,
   (c6_cancelTask_characterization (cancelTask c6Registered "exec-1" 7).2
      "exec-1" 9).2.1 (by decide)
      { executionId := "exec-1", taskName := "build",
        status := TaskStatus.cancelled, startTime := 0, endTime := some 7,
        exitCode := none } (by decide) (by decide)⟩

/-! ### Claim C5 -/

/-- C5: every inspection operation — `getStackTrace`, `getVariables`,
`evaluate`, `continueExecution` — called on a tracked session whose fine
state is not paused returns a failure result and issues no protocol request
to the debug adapter. -/
theorem c5_inspection_fails_fast_when_not_paused (env : DebugEnv)
    (st : LaunchManagerState) (sid : String) (info : DebugSessionInfo)
    (frameId : Option Nat) (expression : String) (threadId : Option Nat)
    (hsid : sid ≠ "") (hs : getKey sid st.sessions = some info)
    (hst : info.state ≠ SessionState.paused) :
    ((getStackTrace env st (some sid)).1.success = false
      ∧ (getStackTrace env st (some sid)).2 = [])
    ∧ ((getVariables env st (some sid) frameId).1.success = false
      ∧ (getVariables env st (some sid) frameId).2 = [])
    ∧ ((evaluate env st expression (some sid) frameId).1.success = false
      ∧ (evaluate env st expression (some sid) frameId).2 = [])
    ∧ ((continueExecution env st (some sid) threadId).1.success = false
      ∧ (continueExecution env st (some sid) threadId).2 = []) := by
  refine ⟨?_, ?_, ?_, ?_⟩
  · constructor <;>
      simp [getStackTrace, resolveTargetId, hsid, hs, hst]
  · constructor <;>
      simp [getVariables, resolveTargetId, hsid, hs, hst]
  · constructor <;>
      simp [evaluate, resolveTargetId, hsid, hs, hst]
  · constructor <;>
      simp [continueExecution, resolveTargetId, hsid, hs, hst]

/-- A running (not paused) tracked session for the C5 witness. -/
def c5State : LaunchManagerState :=
  { emptyLaunchManager with
    sessions := [("s1",
      { id := "s1", name := "app", sessionType := "node",
        status := SessionStatus.active, state := SessionState.running,
        startTime := 0 })] }

/-- A debug environment whose adapter records would answer any request; the
operations must not consult it. -/
def c5Env : DebugEnv :=
  { activeSessionId := some "s1", adapter := fun _ => Except.ok {} }

/-- C5 witness: all four inspection operations fail without issuing any
request on the concrete running session `s1`. -/
theorem c5_inspection_fails_fast_when_not_paused_witness :
    ((getStackTrace c5Env c5State (some "s1")).1.success = false
      ∧ (getStackTrace c5Env c5State (some "s1")).2 = [])
    ∧ ((getVariables c5Env c5State (some "s1") none).1.success = false
      ∧ (getVariables c5Env c5State (some "s1") none).2 = [])
    ∧ ((evaluate c5Env c5State "x + 1" (some "s1") none).1.success = false
      ∧ (evaluate c5Env c5State "x + 1" (some "s1") none).2 = [])
    ∧ ((continueExecution c5Env c5State (some "s1") none).1.success = false
      ∧ (continueExecution c5Env c5State (some "s1") none).2 = []) :=
  c5_inspection_fails_fast_when_not_paused c5Env c5State "s1"
    { id := "s1", name := "app", sessionType := "node",
      status := SessionStatus.active, state := SessionState.running,
      startTime := 0 } none "x + 1" none (by decide) (by decide) (by decide)

/-! ### Bounded output capture: the captureOutput fold -/

/-- A sequence of output-event fragments fed through `captureOutput` in
arrival order. -/
def feedOutputs (st : LaunchManagerState) (sid : String)
    (frags : List (List Char)) : LaunchManagerState :=
  frags.foldl (fun s f => captureOutput s sid { output := some f }) st

theorem feedOutputs_nil (st : LaunchManagerState) (sid : String) :
    feedOutputs st sid [] = st := rfl

theorem feedOutputs_cons (st : LaunchManagerState) (sid : String)
    (f : List Char) (fs : List (List Char)) :
    feedOutputs st sid (f :: fs)
      = feedOutputs (captureOutput st sid { output := some f }) sid fs := rfl

/-- Behavior of the `captureOutput` fold from any state whose bookkeeping for
`sid` is consistent (stored fragments of total length `c ≤ L`, resolved
limit `L`): the stored content extends by exactly the next `L - c`
characters of the offered stream, the tracked length is clamped at `L`, and
the truncated flag can only become true when the offered total overflows. -/
theorem captureOutput_fold_spec (frags : List (List Char)) :
    ∀ (st : LaunchManagerState) (sid : String) (L c : Nat)
      (stored : List (List Char)),
    getOutputLimitForSession st sid = some L →
    getKey sid st.outputs = some stored →
    getKey sid st.outputLengths = some c →
    stored.flatten.length = c → c ≤ L →
    ((getKey sid (feedOutputs st sid frags).outputs).map List.flatten
        = some (stored.flatten ++ (frags.flatten).take (L - c)))
    ∧ getKey sid (feedOutputs st sid frags).outputLengths
        = some (min (c + (frags.flatten).length) L)
    ∧ (getKey sid (feedOutputs st sid frags).outputTruncated = some true →
        (getKey sid st.outputTruncated = some true
          ∨ L < c + (frags.flatten).length)) := by
  induction frags with
  | nil =>
    intro st sid L c stored hL hout hlen hflat hcle
    refine ⟨?_, ?_, fun h => Or.inl h⟩
    · rw [feedOutputs_nil, hout]
      simp
    · rw [feedOutputs_nil, hlen]
      congr 1
      simp
      omega
  | cons f fs ih =>
    intro st sid L c stored hL hout hlen hflat hcle
    rw [feedOutputs_cons]
    by_cases hf : f = []
    · have hstep : captureOutput st sid { output := some f } = st := by
        simp [captureOutput, hf]
      rw [hstep]
      obtain ⟨ih1, ih2, ih3⟩ := ih st sid L c stored hL hout hlen hflat hcle
      refine ⟨?_, ?_, ?_⟩
      · rw [ih1]
        simp only [hf, List.flatten_cons, List.nil_append]
      · rw [ih2]
        simp only [hf, List.flatten_cons, List.nil_append]
      · intro h
        rcases ih3 h with h1 | h1
        · exact Or.inl h1
        · refine Or.inr ?_
          simp only [List.flatten_cons, hf, List.nil_append]
          exact h1
    · by_cases hLc : L ≤ c
      · have hstep : captureOutput st sid { output := some f } = st := by
          simp [captureOutput, hf, hL, hlen, hLc]
        rw [hstep]
        obtain ⟨ih1, ih2, ih3⟩ := ih st sid L c stored hL hout hlen hflat hcle
        have hc : c = L := Nat.le_antisymm hcle hLc
        refine ⟨?_, ?_, ?_⟩
        · rw [ih1]
          congr 2
          simp [hc]
        · rw [ih2]
          congr 1
          simp only [List.flatten_cons, List.length_append]
          omega
        · intro h
          rcases ih3 h with h1 | h1
          · exact Or.inl h1
          · refine Or.inr ?_
            simp only [List.flatten_cons, List.length_append]
            omega
      · by_cases hstr : L < c + f.length
        · have hstep : captureOutput st sid { output := some f } =
              { st with
                outputs := setKey sid (stored ++ [f.take (L - c)]) st.outputs,
                outputLengths := setKey sid L st.outputLengths,
                outputTruncated := setKey sid true st.outputTruncated } := by
            simp [captureOutput, hf, hL, hlen, hout, hLc, hstr]
          rw [hstep]
          have hL1 : getOutputLimitForSession
              { st with
                outputs := setKey sid (stored ++ [f.take (L - c)]) st.outputs,
                outputLengths := setKey sid L st.outputLengths,
                outputTruncated := setKey sid true st.outputTruncated } sid
              = some L := by
            simpa [getOutputLimitForSession] using hL
          have hflat1 : (stored ++ [f.take (L - c)]).flatten.length = L := by
            rw [List.flatten_append]
            simp only [List.flatten_cons, List.flatten_nil, List.append_nil,
              List.length_append, List.length_take]
            omega
          obtain ⟨ih1, ih2, ih3⟩ := ih _ sid L L (stored ++ [f.take (L - c)])
            hL1 (getKey_setKey_self _ _ _) (getKey_setKey_self _ _ _)
            hflat1 le_rfl
          refine ⟨?_, ?_, ?_⟩
          · rw [ih1]
            congr 1
            simp only [List.flatten_append, List.flatten_cons,
              List.flatten_nil, List.append_nil, Nat.sub_self, List.take_zero]
            rw [List.take_append_eq_append_take]
            have h0 : L - c - f.length = 0 := by omega
            rw [h0, List.take_zero, List.append_nil]
          · rw [ih2]
            congr 1
            simp only [List.flatten_cons, List.length_append]
            omega
          · intro _
            refine Or.inr ?_
            simp only [List.flatten_cons, List.length_append]
            omega
        · have hstep : captureOutput st sid { output := some f } =
              { st with
                outputs := setKey sid (stored ++ [f]) st.outputs,
                outputLengths := setKey sid (c + f.length) st.outputLengths } := by
            simp [captureOutput, hf, hL, hlen, hout, hLc, hstr]
          rw [hstep]
          have hL1 : getOutputLimitForSession
              { st with
                outputs := setKey sid (stored ++ [f]) st.outputs,
                outputLengths := setKey sid (c + f.length) st.outputLengths } sid
              = some L := by
            simpa [getOutputLimitForSession] using hL
          have hflat1 : (stored ++ [f]).flatten.length = c + f.length := by
            rw [List.flatten_append]
            simp only [List.flatten_cons, List.flatten_nil, List.append_nil,
              List.length_append]
            omega
          obtain ⟨ih1, ih2, ih3⟩ := ih _ sid L (c + f.length) (stored ++ [f])
            hL1 (getKey_setKey_self _ _ _) (getKey_setKey_self _ _ _)
            hflat1 (by omega)
          refine ⟨?_, ?_, ?_⟩
          · rw [ih1]
            congr 1
            simp only [List.flatten_append, List.flatten_cons,
              List.flatten_nil, List.append_nil]
            rw [List.take_append_eq_append_take]
            have hfle : List.take (L - c) f = f :=
              List.take_of_length_le (by omega)
            rw [hfle]
            have h1 : L - c - f.length = L - (c + f.length) := by omega
            rw [h1, List.append_assoc]
          · rw [ih2]
            congr 1
            simp only [List.flatten_cons, List.length_append]
            omega
          · intro h
            rcases ih3 h with h1 | h1
            · exact Or.inl h1
            · refine Or.inr ?_
              simp only [List.flatten_cons, List.length_append]
              omega

/-! ### Claim C9 -/

/-- C9: for a debug session with resolved output capacity L and fresh output
bookkeeping, feeding any sequence of output-event fragments through
`captureOutput` stores exactly the prefix of length `min(total, L)` of the
concatenated stream (a straddling fragment is clipped character-exact, later
fragments are discarded in full), and the tracked accumulated length equals
`min(total, L)`, never exceeding L. -/
theorem c9_debug_output_is_exact_min_prefix (st : LaunchManagerState)
    (sid : String) (L : Nat) (frags : List (List Char))
    (hL : getOutputLimitForSession st sid = some L)
    (hout : getKey sid st.outputs = some [])
    (hlen : getKey sid st.outputLengths = some 0) :
    ((getKey sid (feedOutputs st sid frags).outputs).map List.flatten
        = some ((frags.flatten).take L))
    ∧ getKey sid (feedOutputs st sid frags).outputLengths
        = some (min (frags.flatten).length L)
    ∧ min (frags.flatten).length L ≤ L := by
  obtain ⟨h1, h2, _⟩ :=
    captureOutput_fold_spec frags st sid L 0 [] hL hout hlen rfl (Nat.zero_le L)
  refine ⟨?_, ?_, Nat.min_le_right _ _⟩
  · rw [h1]
    simp
  · rw [h2]
    congr 1
    omega

/-- A debug session with output capacity 10 and fresh output bookkeeping. -/
def c9State : LaunchManagerState :=
  { emptyLaunchManager with
    outputs := [("s1", [])], outputLengths := [("s1", 0)],
    outputLimits := [("s1", some 10)] }

/-- The fragments fed in the C9 witness (total 12 characters against
capacity 10: the second fragment straddles the limit). -/
def c9Frags : List (List Char) :=
  [("01234567").toList, ("89AB").toList]

/-- C9 witness: the capacity-10 session stores exactly the first 10 of the
12 offered characters. -/
theorem c9_debug_output_is_exact_min_prefix_witness :
    ((getKey "s1" (feedOutputs c9State "s1" c9Frags).outputs).map List.flatten
        = some ((c9Frags.flatten).take 10))
    ∧ getKey "s1" (feedOutputs c9State "s1" c9Frags).outputLengths
        = some (min (c9Frags.flatten).length 10)
    ∧ min (c9Frags.flatten).length 10 ≤ 10 :=
  c9_debug_output_is_exact_min_prefix c9State "s1" 10 c9Frags (by decide)
    (by decide) (by decide)

/-! ### Claim C2 -/

/-- A debug session with output capacity 10 and fresh output bookkeeping
(identical shape to the C9 state, owned by this claim). -/
def c2State : LaunchManagerState :=
  { emptyLaunchManager with
    outputs := [("s1", [])], outputLengths := [("s1", 0)],
    outputLimits := [("s1", some 10)] }

/-- Fragments whose first member fills the capacity exactly and whose second
member overflows it. -/
def c2Frags : List (List Char) :=
  [("0123456789").toList, ("x").toList]

/-- C2 counterexample: the truncated flag is not `true` iff the offered total
exceeds the capacity.  With capacity 10, offering a 10-character fragment and
then one more character leaves the flag unset (the second fragment is
discarded by the `currentLength >= limit` early return before the flag is
ever written), although the offered total, 11, exceeds the capacity. -/
theorem c2_truncated_flag_not_iff_overflow :
    getOutputLimitForSession c2State "s1" = some 10
    ∧ 10 < (c2Frags.flatten).length
    ∧ getKey "s1" (feedOutputs c2State "s1" c2Frags).outputTruncated
        ≠ some true := by
  decide

/-- C2 (amended): for every output buffer with capacity C the accumulated
visible content never exceeds C characters.  For the task-runner buffer
(`truncateOutput`), the stored text is the offered content when it fits and
its first C characters plus the truncation notice otherwise, and the
truncated flag ends up true iff the offered content exceeds C (or the flag
was already set).  For the debug-session buffer (`captureOutput`), the
stored content is the exact C-character prefix and the flag being true
implies the offered total exceeds C — but not conversely, since a fragment
arriving once the accumulated length already equals C is dropped without
setting the flag. -/
theorem c2_capacity_bound_and_truncation_flag :
    (∀ (st : TaskManagerState) (id : String) (s : List Char) (L : Nat),
      getOutputLimitForExecution st id = some L →
      (getKey id (ptyOnOutput st id s).outputs
          = some (if s.length ≤ L then s else s.take L ++ truncMsg L s.length))
      ∧ (s.take L).length ≤ L
      ∧ (getKey id (ptyOnOutput st id s).outputTruncated = some true
          ↔ (L < s.length ∨ getKey id st.outputTruncated = some true)))
    ∧ (∀ (st : LaunchManagerState) (sid : String) (L : Nat)
        (frags : List (List Char)),
      getOutputLimitForSession st sid = some L →
      getKey sid st.outputs = some [] →
      getKey sid st.outputLengths = some 0 →
      getKey sid st.outputTruncated = none →
      ((getKey sid (feedOutputs st sid frags).outputs).map List.flatten
          = some ((frags.flatten).take L))
      ∧ ((frags.flatten).take L).length ≤ L
      ∧ (getKey sid (feedOutputs st sid frags).outputTruncated = some true →
          L < (frags.flatten).length)) := by
  constructor
  · intro st id s L hL
    simp only [ptyOnOutput, truncateOutput, hL]
    by_cases hsl : s.length ≤ L
    · simp only [if_pos hsl]
      refine ⟨getKey_setKey_self _ _ _, ?_, ?_⟩
      · simp only [List.length_take]
        omega
      · have hnl : ¬ (L < s.length) := by omega
        simp [hnl]
    · simp only [if_neg hsl]
      refine ⟨?_, ?_, ?_⟩
      · rw [getKey_setKey_self]
      · simp only [List.length_take]
        omega
      · constructor
        · intro _
          exact Or.inl (by omega)
        · intro _
          exact getKey_setKey_self _ _ _
  · intro st sid L frags hL hout hlen htr
    obtain ⟨h1, h2, h3⟩ :=
      captureOutput_fold_spec frags st sid L 0 [] hL hout hlen rfl
        (Nat.zero_le L)
    refine ⟨?_, ?_, ?_⟩
    · rw [h1]
      simp
    · simp only [List.length_take]
      omega
    · intro h
      rcases h3 h with h4 | h4
      · rw [htr] at h4
        cases h4
      · omega

/-- A fresh task manager tracking one capture-mode execution for the C2
witness. -/
def c2TaskState : TaskManagerState :=
  registerCaptureExecution emptyTaskManager "exec-1" "build"
    (some (some 4)) "tok-1" 0

/-- C2 witness: the task-runner buffer of capacity 4 truncates a 6-character
output and sets its flag; the capacity-10 session buffer stores the exact
prefix with the flag implication. -/
theorem c2_capacity_bound_and_truncation_flag_witness :
    ((getKey "exec-1" (ptyOnOutput c2TaskState "exec-1"
          (("abcdef").toList)).outputs
        = some (if (("abcdef").toList).length ≤ 4 then ("abcdef").toList
                else (("abcdef").toList).take 4
                  ++ truncMsg 4 (("abcdef").toList).length))
      ∧ ((("abcdef").toList).take 4).length ≤ 4
      ∧ (getKey "exec-1" (ptyOnOutput c2TaskState "exec-1"
            (("abcdef").toList)).outputTruncated = some true
          ↔ (4 < (("abcdef").toList).length
              ∨ getKey "exec-1" c2TaskState.outputTruncated = some true)))
    ∧ (((getKey "s1" (feedOutputs c2State "s1" c2Frags).outputs).map
          List.flatten = some ((c2Frags.flatten).take 10))
      ∧ ((c2Frags.flatten).take 10).length ≤ 10
      ∧ (getKey "s1" (feedOutputs c2State "s1" c2Frags).outputTruncated
            = some true → 10 < (c2Frags.flatten).length)) :=
  ⟨c2_capacity_bound_and_truncation_flag.1 c2TaskState "exec-1"
      (("abcdef").toList) 4 (by decide),
   c2_capacity_bound_and_truncation_flag.2 c2State "s1" 10 c2Frags
      (by decide) (by decide) (by decide) (by decide)⟩

/-! ### Claim C7 -/

/-- A registry trace in which the execution record is present at every poll
(the common case: records are only removed by `dispose`). -/
def totalView (infoF : Nat → TaskExecutionInfo) (outF : Nat → Option (List Char))
    (truncF : Nat → Option Bool) : Nat → RegistryView :=
  fun j => { info := some (infoF j), output := outF j, truncated := truncF j }

/-- If the record is settled at a poll within the timeout budget, the poll
loop returns the settled result of the first settled poll it reaches. -/
theorem awaitPoll_reaches_settled (executionId : String)
    (infoF : Nat → TaskExecutionInfo) (outF : Nat → Option (List Char))
    (truncF : Nat → Option Bool) (timeout : Nat) :
    ∀ (d j : Nat), (infoF (j + d)).status ≠ TaskStatus.running →
    100 * (j + d) ≤ timeout →
    ∃ m, j ≤ m ∧ m ≤ j + d ∧ (infoF m).status ≠ TaskStatus.running ∧
      awaitPoll executionId (totalView infoF outF truncF) timeout j
        = settledAwaitResult executionId (infoF m) (outF m) (truncF m) := by
  intro d
  induction d with
  | zero =>
    intro j hs hb
    have hs' : (infoF j).status ≠ TaskStatus.running := by simpa using hs
    refine ⟨j, le_rfl, by omega, hs', ?_⟩
    rw [awaitPoll.eq_def]
    simp only [totalView]
    simp [hs']
  | succ d ihd =>
    intro j hs hb
    by_cases hj : (infoF j).status ≠ TaskStatus.running
    · refine ⟨j, le_rfl, by omega, hj, ?_⟩
      rw [awaitPoll.eq_def]
      simp only [totalView]
      simp [hj]
    · have hnt : ¬ (timeout < 100 * j) := by omega
      have hrec : awaitPoll executionId (totalView infoF outF truncF) timeout j
          = awaitPoll executionId (totalView infoF outF truncF) timeout (j + 1) := by
        rw [awaitPoll.eq_def]
        simp only [totalView]
        simp [hj, hnt]
      have hidx : j + 1 + d = j + (d + 1) := by omega
      obtain ⟨m, h1, h2, h3, h4⟩ := ihd (j + 1)
        (by rw [hidx]; exact hs) (by omega)
      exact ⟨m, by omega, by omega, h3, hrec.trans h4⟩

/-- If the record is still running at every poll up to and including the
first one past the timeout budget, the poll loop returns the timeout
result. -/
theorem awaitPoll_times_out (executionId : String)
    (infoF : Nat → TaskExecutionInfo) (outF : Nat → Option (List Char))
    (truncF : Nat → Option Bool) (timeout : Nat) :
    ∀ (n j : Nat), timeout + 100 - 100 * j ≤ n → 100 * j ≤ timeout + 100 →
    (∀ m, 100 * m ≤ timeout + 100 → (infoF m).status = TaskStatus.running) →
    awaitPoll executionId (totalView infoF outF truncF) timeout j
      = timeoutAwaitResult executionId timeout := by
  intro n
  induction n with
  | zero =>
    intro j h1 h2 hall
    have hrun := hall j h2
    have ht : timeout < 100 * j := by omega
    rw [awaitPoll.eq_def]
    simp only [totalView]
    simp [hrun, ht]
  | succ n ihn =>
    intro j h1 h2 hall
    have hrun := hall j h2
    rw [awaitPoll.eq_def]
    simp only [totalView]
    by_cases ht : timeout < 100 * j
    · simp [hrun, ht]
    · simp only [hrun]
      simp [ht]
      exact ihn (j + 1) (by omega) (by omega) hall

/-- C7: for every known execution and any registry trace along the polls,
(a) if the execution is already settled at the initial check, `awaitTask`
returns the settled result built from that record — whose success flag is
true iff the status is completed and which carries the recorded status, exit
code and output — without entering the poll loop; (b) if the execution is
settled at some poll within the timeout budget, `awaitTask` returns the
settled result of the first settled poll (never a timeout result: its error
field is none and its status the settled status); (c) if the execution is
still running at every poll through the first one past the budget,
`awaitTask` returns the distinguishable timed-out-but-still-running result:
success false, status running, and an error message, unlike both a
successful and a failed settlement. -/
theorem c7_awaitTask_settlement_and_timeout (executionId : String)
    (infoF : Nat → TaskExecutionInfo) (outF : Nat → Option (List Char))
    (truncF : Nat → Option Bool) (timeoutMs : Option Nat)
    (defaultAwaitTimeout : Nat) :
    ((infoF 0).status ≠ TaskStatus.running →
      awaitTask executionId (totalView infoF outF truncF) timeoutMs
          defaultAwaitTimeout
        = settledAwaitResult executionId (infoF 0) (outF 0) (truncF 0)
      ∧ ((settledAwaitResult executionId (infoF 0) (outF 0) (truncF 0)).success
            = true ↔ (infoF 0).status = TaskStatus.completed)
      ∧ (settledAwaitResult executionId (infoF 0) (outF 0)
          (truncF 0)).status = some (infoF 0).status
      ∧ (settledAwaitResult executionId (infoF 0) (outF 0)
          (truncF 0)).exitCode = (infoF 0).exitCode
      ∧ (settledAwaitResult executionId (infoF 0) (outF 0)
          (truncF 0)).output = outF 0)
    ∧ (∀ k, 100 * k ≤ timeoutMs.getD defaultAwaitTimeout →
        (infoF k).status ≠ TaskStatus.running →
        ∃ m, m ≤ k ∧ (infoF m).status ≠ TaskStatus.running
          ∧ awaitTask executionId (totalView infoF outF truncF) timeoutMs
              defaultAwaitTimeout
            = settledAwaitResult executionId (infoF m) (outF m) (truncF m)
          ∧ (settledAwaitResult executionId (infoF m) (outF m)
              (truncF m)).error = none
          ∧ (settledAwaitResult executionId (infoF m) (outF m)
              (truncF m)).status = some (infoF m).status)
    ∧ ((∀ m, 100 * m ≤ (timeoutMs.getD defaultAwaitTimeout) + 100 →
          (infoF m).status = TaskStatus.running) →
        awaitTask executionId (totalView infoF outF truncF) timeoutMs
            defaultAwaitTimeout
          = timeoutAwaitResult executionId (timeoutMs.getD defaultAwaitTimeout)
        ∧ (timeoutAwaitResult executionId
            (timeoutMs.getD defaultAwaitTimeout)).success = false
        ∧ (timeoutAwaitResult executionId
            (timeoutMs.getD defaultAwaitTimeout)).status
            = some TaskStatus.running
        ∧ (timeoutAwaitResult executionId
            (timeoutMs.getD defaultAwaitTimeout)).error ≠ none) := by
  refine ⟨?_, ?_, ?_⟩
  · intro h0
    refine ⟨?_, ?_, rfl, rfl, rfl⟩
    · unfold awaitTask
      simp only [totalView]
      simp [h0]
    · simp [settledAwaitResult]
  · intro k hk hsettled
    by_cases h0 : (infoF 0).status ≠ TaskStatus.running
    · refine ⟨0, Nat.zero_le _, h0, ?_, rfl, rfl⟩
      unfold awaitTask
      simp only [totalView]
      simp [h0]
    · have hentry : awaitTask executionId (totalView infoF outF truncF)
          timeoutMs defaultAwaitTimeout
          = awaitPoll executionId (totalView infoF outF truncF)
              (timeoutMs.getD defaultAwaitTimeout) 0 := by
        unfold awaitTask
        simp only [totalView]
        simp [h0]
      obtain ⟨m, _, hm, h3, h4⟩ := awaitPoll_reaches_settled executionId infoF
        outF truncF (timeoutMs.getD defaultAwaitTimeout) k 0
        (by simpa using hsettled) (by simpa using hk)
      exact ⟨m, by omega, h3, hentry.trans h4, rfl, rfl⟩
  · intro hall
    have h0 : (infoF 0).status = TaskStatus.running := hall 0 (by omega)
    have hentry : awaitTask executionId (totalView infoF outF truncF)
        timeoutMs defaultAwaitTimeout
        = awaitPoll executionId (totalView infoF outF truncF)
            (timeoutMs.getD defaultAwaitTimeout) 0 := by
      unfold awaitTask
      simp only [totalView]
      simp [h0]
    refine ⟨?_, rfl, rfl, by simp [timeoutAwaitResult]⟩
    rw [hentry]
    exact awaitPoll_times_out executionId infoF outF truncF _
      ((timeoutMs.getD defaultAwaitTimeout) + 100) 0 (by omega) (by omega) hall

/-- A still-running execution record for the C7 witness traces. -/
def c7Running : TaskExecutionInfo :=
  { executionId := "exec-1", taskName := "build",
    status := TaskStatus.running, startTime := 0 }

/-- A completed execution record for the C7 witness traces. -/
def c7Completed : TaskExecutionInfo :=
  { executionId := "exec-1", taskName := "build",
    status := TaskStatus.completed, startTime := 0, endTime := some 150,
    exitCode := some 0 }

/-- A trace that settles to completed at the second poll. -/
def c7InfoSettles (j : Nat) : TaskExecutionInfo :=
  if j < 2 then c7Running else c7Completed

/-- The output entry along the C7 witness traces. -/
def c7OutF (_ : Nat) : Option (List Char) := some (("hello").toList)

/-- The truncated entry along the C7 witness traces. -/
def c7TruncF (_ : Nat) : Option Bool := some false

/-- C7 witness: the three behaviors on concrete traces — immediate return on
an already-completed record, settlement at the second poll under a 300ms
budget, and the timeout result on an ever-running record. -/
theorem c7_awaitTask_settlement_and_timeout_witness :
    (awaitTask "exec-1" (totalView (fun _ => c7Completed) c7OutF c7TruncF)
        (some 300) 300000
      = settledAwaitResult "exec-1" c7Completed (c7OutF 0) (c7TruncF 0))
    ∧ (∃ m, m ≤ 2 ∧ (c7InfoSettles m).status ≠ TaskStatus.running
        ∧ awaitTask "exec-1" (totalView c7InfoSettles c7OutF c7TruncF)
            (some 300) 300000
          = settledAwaitResult "exec-1" (c7InfoSettles m) (c7OutF m)
              (c7TruncF m)
        ∧ (settledAwaitResult "exec-1" (c7InfoSettles m) (c7OutF m)
            (c7TruncF m)).error = none
        ∧ (settledAwaitResult "exec-1" (c7InfoSettles m) (c7OutF m)
            (c7TruncF m)).status = some (c7InfoSettles m).status)
    ∧ (awaitTask "exec-1" (totalView (fun _ => c7Running) c7OutF c7TruncF)
        (some 300) 300000 = timeoutAwaitResult "exec-1" 300) :=
  ⟨((c7_awaitTask_settlement_and_timeout "exec-1" (fun _ => c7Completed)
      c7OutF c7TruncF (some 300) 300000).1 (by decide)).1,
   (c7_awaitTask_settlement_and_timeout "exec-1" c7InfoSettles c7OutF c7TruncF
      (some 300) 300000).2.1 2 (by decide) (by decide),
   ((c7_awaitTask_settlement_and_timeout "exec-1" (fun _ => c7Running)
      c7OutF c7TruncF (some 300) 300000).2.2 (fun _ _ => rfl)).1⟩

/-! ### Claim C8 -/

/-- The editor's breakpoint set after `addBreakpoint("a.ts", 5, "c1")` from
an empty set. -/
def c8StoreOne : List SourceBreakpoint :=
  (addBreakpoint [] "a.ts" 5 (some "c1")).2

/-- The editor's breakpoint set after re-adding the same (file, line) key
with condition `"c2"`. -/
def c8StoreTwo : List SourceBreakpoint :=
  (addBreakpoint c8StoreOne "a.ts" 5 (some "c2")).2

/-- C8 counterexample: `addBreakpoint` is not idempotent on the (file, line)
key.  Re-adding (a.ts, 5) with a new condition leaves two breakpoints at the
key, with conditions c1 and c2 — not a single breakpoint with condition c2 —
and both are observable via `listBreakpoints`. -/
theorem c8_readd_accumulates_duplicates :
    (listBreakpoints c8StoreTwo).length = 2
    ∧ ((listBreakpoints c8StoreTwo).filter
        (fun b => b.file == "a.ts" && b.line == 5)).length = 2
    ∧ (listBreakpoints c8StoreTwo).map BreakpointInfo.condition
        = [some "c1", some "c2"] := by
  decide

/-- C8 (amended): `addBreakpoint(file, line, c)` always appends a fresh
breakpoint to the shared editor set, so calling it twice on the same
(file, line) key with conditions c1 and then c2 leaves `listBreakpoints`
reporting the previous entries followed by two entries at that key — the
first with condition c1, the second with condition c2, both sharing the
composite id `file:line`; re-adding accumulates duplicates instead of
updating in place. -/
theorem c8_addBreakpoint_appends_duplicate_entries
    (store : List SourceBreakpoint) (file : String) (line : Nat)
    (c1 c2 : Option String) (hline : 1 ≤ line) :
    listBreakpoints
        (addBreakpoint (addBreakpoint store file line c1).2 file line c2).2
      = listBreakpoints store
        ++ [{ id := breakpointId file line, file := file, line := line,
              enabled := true, condition := c1 },
            { id := breakpointId file line, file := file, line := line,
              enabled := true, condition := c2 }] := by
  have h : line - 1 + 1 = line := Nat.sub_add_cancel hline
  simp [addBreakpoint, listBreakpoints, h]

/-- C8 witness: the two-adds append, instantiated at an empty store and
(a.ts, 5). -/
theorem c8_addBreakpoint_appends_duplicate_entries_witness :
    listBreakpoints
        (addBreakpoint (addBreakpoint [] "a.ts" 5 (some "c1")).2 "a.ts" 5
          (some "c2")).2
      = listBreakpoints []
        ++ [{ id := breakpointId "a.ts" 5, file := "a.ts", line := 5,
              enabled := true, condition := some "c1" },
            { id := breakpointId "a.ts" 5, file := "a.ts", line := 5,
              enabled := true, condition := some "c2" }] :=
  c8_addBreakpoint_appends_duplicate_entries [] "a.ts" 5 (some "c1")
    (some "c2") (by decide)

/-! ### Claim C10 -/

theorem fabricatedSessionId_ne_empty (now : Nat) :
    fabricatedSessionId now ≠ "" := by
  unfold fabricatedSessionId
  intro h
  have hlen := congrArg String.length h
  rw [String.length_append] at hlen
  have h6 : ("debug-").length = 6 := rfl
  have h0 : ("" : String).length = 0 := rfl
  omega

/-- C10: when the start request resolves successfully but no active debug
session is observable afterwards, `startDebug` reports success with the
fabricated `debug-<timestamp>` session id, no session record is created for
that id, and both `getDebugOutput` and `getStackTrace` on the returned id
subsequently fail with their not-found errors. -/
theorem c10_fabricated_session_id_not_tracked (configs : List LaunchConfig)
    (configName : String) (cfg : LaunchConfig) (now : Nat)
    (st : LaunchManagerState) (env : DebugEnv)
    (hfind : configs.find? (fun c => c.name == configName) = some cfg)
    (hsess : getKey (fabricatedSessionId now) st.sessions = none)
    (hout : getKey (fabricatedSessionId now) st.outputs = none) :
    (startDebug configs configName true none now st).1.success = true
    ∧ (startDebug configs configName true none now st).1.sessionId
        = some (fabricatedSessionId now)
    ∧ getKey (fabricatedSessionId now)
        (startDebug configs configName true none now st).2.sessions = none
    ∧ getDebugOutput env (startDebug configs configName true none now st).2
        (some (fabricatedSessionId now))
        = { success := false, sessionId := some (fabricatedSessionId now),
            error := some "Session not found or no output captured" }
    ∧ (getStackTrace env (startDebug configs configName true none now st).2
        (some (fabricatedSessionId now))).1
        = { success := false, sessionId := some (fabricatedSessionId now),
            error := some "Session not found" }
    ∧ (getStackTrace env (startDebug configs configName true none now st).2
        (some (fabricatedSessionId now))).2 = [] := by
  have hne : fabricatedSessionId now ≠ "" := fabricatedSessionId_ne_empty now
  refine ⟨?_, ?_, ?_, ?_, ?_, ?_⟩
  · simp [startDebug, hfind]
  · simp [startDebug, hfind]
  · simp [startDebug, hfind, hsess]
  · simp [getDebugOutput, resolveTargetId, hne, startDebug, hfind, hout]
  · simp [getStackTrace, resolveTargetId, hne, startDebug, hfind, hsess]
  · simp [getStackTrace, resolveTargetId, hne, startDebug, hfind, hsess]

/-- The single launch configuration of the C10 witness. -/
def c10Config : LaunchConfig := { name := "Run app" }

/-- C10 witness: starting `Run app` at time 7 with no observable session
yields success with the untracked id `debug-7`, and both follow-up reads
fail. -/
theorem c10_fabricated_session_id_not_tracked_witness :
    (startDebug [c10Config] "Run app" true none 7 emptyLaunchManager).1.success
        = true
    ∧ (startDebug [c10Config] "Run app" true none 7
        emptyLaunchManager).1.sessionId = some (fabricatedSessionId 7)
    ∧ getKey (fabricatedSessionId 7)
        (startDebug [c10Config] "Run app" true none 7
          emptyLaunchManager).2.sessions = none
    ∧ getDebugOutput { activeSessionId := none, adapter := fun _ => Except.ok {} }
        (startDebug [c10Config] "Run app" true none 7 emptyLaunchManager).2
        (some (fabricatedSessionId 7))
        = { success := false, sessionId := some (fabricatedSessionId 7),
            error := some "Session not found or no output captured" }
    ∧ (getStackTrace { activeSessionId := none, adapter := fun _ => Except.ok {} }
        (startDebug [c10Config] "Run app" true none 7 emptyLaunchManager).2
        (some (fabricatedSessionId 7))).1
        = { success := false, sessionId := some (fabricatedSessionId 7),
            error := some "Session not found" }
    ∧ (getStackTrace { activeSessionId := none, adapter := fun _ => Except.ok {} }
        (startDebug [c10Config] "Run app" true none 7 emptyLaunchManager).2
        (some (fabricatedSessionId 7))).2 = [] :=
  c10_fabricated_session_id_not_tracked [c10Config] "Run app" c10Config 7
    emptyLaunchManager { activeSessionId := none, adapter := fun _ => Except.ok {} }
    (by decide) (by decide) (by decide)

end IgnitionMCP
